import Mathlib

/-!
Verification of the `lemosyne/persistence` object store.

The repository defines a `PersistentStorage` contract and one reference
backend, `StdObjectStore`, which stores each object as one file under a
root directory, named by the decimal form of its 64-bit identifier.

We embed the reference backend shallowly: the ambient filesystem is an
association list from path (a `String`) to file contents (a list of byte
values), and every backend operation is a function from the store plus a
filesystem to an `Except` result, threading the filesystem explicitly.
Identifiers are modelled as `Nat` (the Rust `u64` is only ever formatted
in decimal, so no wrap-around arises).
-/

namespace Persistence

/-- File contents: a sequence of byte values. -/
abbrev Bytes := List Nat

/-- The error kinds of `std::io::Error` that the reference backend can
surface: a missing file, an existing file, and a catch-all for other
medium failures (permission, capacity, bad descriptor). -/
inductive ErrorKind where
  | notFound
  | alreadyExists
  | otherError
  deriving DecidableEq

/-- The ambient filesystem: an association list from path to file
contents. A path holds at most one file; `setFile` and `eraseFile`
maintain first-match lookup semantics. -/
abbrev Fs := List (String × Bytes)

/-- Contents of the file at path `p`, if one exists. -/
def Fs.lookup : Fs → String → Option Bytes
  | [], _ => none
  | (q, c) :: rest, p => if q = p then some c else Fs.lookup rest p

/-- Remove the file at path `p` (all entries with that key). -/
def Fs.eraseFile : Fs → String → Fs
  | [], _ => []
  | (q, c) :: rest, p =>
      if q = p then Fs.eraseFile rest p else (q, c) :: Fs.eraseFile rest p

/-- Create or replace the file at path `p` with contents `c`. -/
def Fs.setFile (fs : Fs) (p : String) (c : Bytes) : Fs :=
  (p, c) :: fs.eraseFile p

/-- The access mode a handle was opened with: `read(true)` only,
`write(true)` only, or both. -/
inductive AccessMode where
  | readOnly
  | writeOnly
  | readWrite
  deriving DecidableEq

/-- An open file handle: the path it is bound to, the access mode it was
opened with, and the current cursor position. A freshly opened `File`
starts at position 0. -/
structure Handle where
  path : String
  mode : AccessMode
  pos : Nat
  deriving DecidableEq

/-- The ASCII digit character for a single decimal digit. -/
def digitChar (d : Nat) : Char := Char.ofNat (48 + d)

/-- Models Rust decimal formatting of an unsigned integer (the Display
implementation behind format applied to a u64): emit the last digit and
recurse on the quotient by 10. The first argument is fuel making the
loop structurally recursive; `n + 1` units always suffice since the
digit count of `n` never exceeds `n + 1`. -/
def fmtU64Core : Nat → Nat → List Char → List Char
  | 0, n, acc => digitChar n :: acc
  | fuel + 1, n, acc =>
      if n < 10 then digitChar n :: acc
      else fmtU64Core fuel (n / 10) (digitChar (n % 10) :: acc)

/-- The decimal string form of an identifier, as produced by Rust
format of a u64. -/
def fmtU64 (n : Nat) : String := String.mk (fmtU64Core n n [])

/-- Models the path! macro joining a directory path and a (relative)
file name with a separator. -/
def pathJoin (a b : String) : String := a ++ "/" ++ b

/-- The reference backend: all it stores is the root directory path
(`StdObjectStore` in the source). -/
structure StdObjectStore where
  root : String
  deriving DecidableEq

namespace StdObjectStore

/-- `StdObjectStore::object_path`: the path of the object named `objid`,
namely the decimal form of `objid` joined under the root. -/
def object_path (s : StdObjectStore) (objid : Nat) : String :=
  pathJoin s.root (fmtU64 objid)

/-- `StdObjectStore::create`: `File::create` makes a new empty file, or
truncates the existing file to length zero. It does not fail on an
existing path. -/
def create (s : StdObjectStore) (fs : Fs) (objid : Nat) : Except ErrorKind Fs :=
  Except.ok (fs.setFile (s.object_path objid) [])

/-- `StdObjectStore::destroy`: `fs::remove_file` removes the file, and
fails with `NotFound` when there is none. -/
def destroy (s : StdObjectStore) (fs : Fs) (objid : Nat) : Except ErrorKind Fs :=
  match fs.lookup (s.object_path objid) with
  | some _ => Except.ok (fs.eraseFile (s.object_path objid))
  | none => Except.error ErrorKind.notFound

/-- `StdObjectStore::read_handle`: open with `read(true)`; fails
`NotFound` when the file is absent; a fresh handle sits at position 0. -/
def read_handle (s : StdObjectStore) (fs : Fs) (objid : Nat) :
    Except ErrorKind Handle :=
  match fs.lookup (s.object_path objid) with
  | some _ => Except.ok ⟨s.object_path objid, AccessMode.readOnly, 0⟩
  | none => Except.error ErrorKind.notFound

/-- `StdObjectStore::write_handle`: open with `write(true)` (no create
flag, no truncation); fails `NotFound` when the file is absent. -/
def write_handle (s : StdObjectStore) (fs : Fs) (objid : Nat) :
    Except ErrorKind Handle :=
  match fs.lookup (s.object_path objid) with
  | some _ => Except.ok ⟨s.object_path objid, AccessMode.writeOnly, 0⟩
  | none => Except.error ErrorKind.notFound

/-- `StdObjectStore::rw_handle`: open with `read(true).write(true)`;
fails `NotFound` when the file is absent. -/
def rw_handle (s : StdObjectStore) (fs : Fs) (objid : Nat) :
    Except ErrorKind Handle :=
  match fs.lookup (s.object_path objid) with
  | some _ => Except.ok ⟨s.object_path objid, AccessMode.readWrite, 0⟩
  | none => Except.error ErrorKind.notFound

/-- `StdObjectStore::size`: `fs::metadata(..).len()`, the byte length of
the file; fails `NotFound` when the file is absent. -/
def size (s : StdObjectStore) (fs : Fs) (objid : Nat) : Except ErrorKind Nat :=
  match fs.lookup (s.object_path objid) with
  | some c => Except.ok c.length
  | none => Except.error ErrorKind.notFound

/-- `File::set_len`: shrink to the first `n` bytes, or extend with
zero fill up to length `n`. -/
def setLen (c : Bytes) (n : Nat) : Bytes :=
  if n ≤ c.length then c.take n else c ++ List.replicate (n - c.length) 0

/-- `StdObjectStore::truncate`: open with `write(true)` (fails
`NotFound` when the file is absent) and apply `set_len`. -/
def truncate (s : StdObjectStore) (fs : Fs) (objid : Nat) (n : Nat) :
    Except ErrorKind Fs :=
  match fs.lookup (s.object_path objid) with
  | some c => Except.ok (fs.setFile (s.object_path objid) (setLen c n))
  | none => Except.error ErrorKind.notFound

/-- The filesystem after a `truncate` call: a failed call raises its
error at the `open` step, before any modification, so the filesystem is
unchanged. -/
def truncateFs (s : StdObjectStore) (fs : Fs) (objid : Nat) (n : Nat) : Fs :=
  match s.truncate fs objid n with
  | Except.ok fs2 => fs2
  | Except.error _ => fs

end StdObjectStore

/-- Writing `b` through a handle: refused on a read-only handle (write
is not a capability of a file opened only with `read(true)`); otherwise
the bytes land at the cursor, overwriting in place and extending the
file as needed (a gap beyond the end of file reads back as zeros), and
the cursor advances by the number of bytes written. -/
def Handle.write (h : Handle) (fs : Fs) (b : Bytes) :
    Except ErrorKind (Handle × Fs) :=
  if h.mode = AccessMode.readOnly then Except.error ErrorKind.otherError
  else
    match fs.lookup h.path with
    | some c =>
        Except.ok
          (⟨h.path, h.mode, h.pos + b.length⟩,
            fs.setFile h.path
              (c.take h.pos ++ List.replicate (h.pos - c.length) 0 ++ b ++
                c.drop (h.pos + b.length)))
    | none => Except.error ErrorKind.otherError

/-- Reading the rest of the file through a handle: refused on a
write-only handle; otherwise yields the contents from the cursor to the
end of file. -/
def Handle.readToEnd (h : Handle) (fs : Fs) : Except ErrorKind Bytes :=
  if h.mode = AccessMode.writeOnly then Except.error ErrorKind.otherError
  else
    match fs.lookup h.path with
    | some c => Except.ok (c.drop h.pos)
    | none => Except.error ErrorKind.otherError

/-- The decimal string form of a natural number, written from the spec's
words via Mathlib's base-10 digits (most significant digit first). -/
def decimalRepr (n : Nat) : String :=
  if n = 0 then "0" else String.mk (((Nat.digits 10 n).reverse).map digitChar)

/-- The characters of `decimalRepr`. -/
def decChars (n : Nat) : List Char :=
  if n = 0 then [digitChar 0] else ((Nat.digits 10 n).reverse).map digitChar

instance {ε α : Type} [DecidableEq ε] [DecidableEq α] :
    DecidableEq (Except ε α) := fun a b =>
  match a, b with
  | Except.ok x, Except.ok y =>
      if h : x = y then isTrue (by rw [h])
      else isFalse (fun hc => h (Except.ok.inj hc))
  | Except.error x, Except.error y =>
      if h : x = y then isTrue (by rw [h])
      else isFalse (fun hc => h (Except.error.inj hc))
  | Except.ok _, Except.error _ => isFalse (fun hc => Except.noConfusion hc)
  | Except.error _, Except.ok _ => isFalse (fun hc => Except.noConfusion hc)

theorem decChars_step (n : Nat) (h : 10 ≤ n) :
    decChars n = decChars (n / 10) ++ [digitChar (n % 10)] := by
  have hn : n ≠ 0 := by omega
  have hq : n / 10 ≠ 0 := by omega
  rw [decChars, decChars, if_neg hn, if_neg hq,
    Nat.digits_def' (by norm_num : (1 : Nat) < 10) (Nat.pos_of_ne_zero hn)]
  simp

theorem fmtU64Core_eq :
    ∀ fuel n acc, n ≤ fuel → fmtU64Core fuel n acc = decChars n ++ acc := by
  intro fuel
  induction fuel with
  | zero =>
      intro n acc h
      have hz : n = 0 := Nat.le_zero.mp h
      subst hz
      simp [fmtU64Core, decChars]
  | succ fuel ih =>
      intro n acc h
      simp only [fmtU64Core]
      by_cases h10 : n < 10
      · rw [if_pos h10]
        by_cases hn : n = 0
        · subst hn; simp [decChars]
        · rw [decChars, if_neg hn, Nat.digits_of_lt 10 n hn h10]
          simp
      · rw [if_neg h10]
        have hlt : n / 10 < n := Nat.div_lt_self (by omega) (by norm_num)
        rw [ih (n / 10) (digitChar (n % 10) :: acc) (by omega)]
        rw [decChars_step n (by omega)]
        simp

/-- The source's decimal formatting of an identifier agrees with the
spec-level decimal string form. -/
theorem fmtU64_eq_decimalRepr (n : Nat) : fmtU64 n = decimalRepr n := by
  unfold fmtU64
  rw [fmtU64Core_eq n n [] (le_refl n), List.append_nil]
  unfold decimalRepr decChars
  by_cases hn : n = 0
  · subst hn
    simp only [if_pos rfl]
    decide
  · rw [if_neg hn, if_neg hn]

theorem Fs.lookup_eraseFile (fs : Fs) (p r : String) :
    Fs.lookup (fs.eraseFile p) r = if r = p then none else fs.lookup r := by
  induction fs with
  | nil => simp [Fs.lookup, Fs.eraseFile]
  | cons hd tl ih =>
      obtain ⟨q, c⟩ := hd
      by_cases hqp : q = p
      · subst hqp
        by_cases hrq : r = q
        · subst hrq
          simp [Fs.lookup, Fs.eraseFile, ih]
        · simp [Fs.lookup, Fs.eraseFile, ih, hrq, Ne.symm hrq]
      · by_cases hqr : q = r
        · subst hqr
          simp [Fs.lookup, Fs.eraseFile, ih, hqp, Ne.symm hqp]
        · simp [Fs.lookup, Fs.eraseFile, ih, hqp, hqr]

theorem Fs.lookup_setFile (fs : Fs) (p : String) (c : Bytes) (r : String) :
    Fs.lookup (fs.setFile p c) r = if r = p then some c else fs.lookup r := by
  by_cases hrp : r = p
  · subst hrp
    simp [Fs.setFile, Fs.lookup]
  · simp [Fs.setFile, Fs.lookup, hrp, Ne.symm hrp, Fs.lookup_eraseFile]

/-- C1 counterexample: with root "r" and an object already stored under
identifier 1 (file "r/1" with contents [7]), `create` succeeds — it does
not fail with `AlreadyExists`. -/
theorem create_existing_succeeds_cex :
    StdObjectStore.create ⟨"r"⟩ [("r/1", [7])] 1 = Except.ok [("r/1", [])] ∧
    StdObjectStore.create ⟨"r"⟩ [("r/1", [7])] 1 ≠
      Except.error ErrorKind.alreadyExists := by
  constructor
  · decide
  · decide

/-- C1 amended: for every identifier already in use, `create` does not
fail at all (in particular never with an `AlreadyExists` error); it
succeeds and silently truncates the existing object to length zero. -/
theorem create_existing_silently_overwrites (s : StdObjectStore) (fs : Fs)
    (objid : Nat) (c : Bytes) (h : fs.lookup (s.object_path objid) = some c) :
    (∀ e : ErrorKind, s.create fs objid ≠ Except.error e) ∧
    ∃ fs2, s.create fs objid = Except.ok fs2 ∧
      fs2.lookup (s.object_path objid) = some [] := by
  refine ⟨?_, fs.setFile (s.object_path objid) [], rfl, ?_⟩
  · intro e he
    exact Except.noConfusion he
  · rw [Fs.lookup_setFile, if_pos rfl]

/-- C1 amended, witness at root "r", identifier 1, prior contents [7]. -/
theorem create_existing_silently_overwrites_witness :
    Fs.lookup [("r/1", [7])] (StdObjectStore.object_path ⟨"r"⟩ 1) = some [7] ∧
    ((∀ e : ErrorKind,
        StdObjectStore.create ⟨"r"⟩ [("r/1", [7])] 1 ≠ Except.error e) ∧
      ∃ fs2, StdObjectStore.create ⟨"r"⟩ [("r/1", [7])] 1 = Except.ok fs2 ∧
        fs2.lookup (StdObjectStore.object_path ⟨"r"⟩ 1) = some []) :=
  ⟨by decide, create_existing_silently_overwrites ⟨"r"⟩ [("r/1", [7])] 1 [7]
    (by decide)⟩

/-- C4: `destroy` on an identifier with no live object fails with a
`NotFound` error; it never succeeds silently. -/
theorem destroy_missing_not_found (s : StdObjectStore) (fs : Fs) (objid : Nat)
    (h : fs.lookup (s.object_path objid) = none) :
    s.destroy fs objid = Except.error ErrorKind.notFound := by
  unfold StdObjectStore.destroy
  rw [h]

/-- C4 witness: destroying identifier 1 on an empty filesystem. -/
theorem destroy_missing_not_found_witness :
    Fs.lookup [] (StdObjectStore.object_path ⟨"r"⟩ 1) = none ∧
    StdObjectStore.destroy ⟨"r"⟩ [] 1 = Except.error ErrorKind.notFound :=
  ⟨rfl, destroy_missing_not_found ⟨"r"⟩ [] 1 rfl⟩

/-- C7: for an identifier not currently in use, `create` succeeds and the
new object is empty: `size` reports exactly 0. -/
theorem create_fresh_empty (s : StdObjectStore) (fs : Fs) (objid : Nat)
    (h : fs.lookup (s.object_path objid) = none) :
    ∃ fs2, s.create fs objid = Except.ok fs2 ∧
      s.size fs2 objid = Except.ok 0 := by
  refine ⟨fs.setFile (s.object_path objid) [], rfl, ?_⟩
  unfold StdObjectStore.size
  rw [Fs.lookup_setFile, if_pos rfl]
  rfl

/-- C7 witness: creating identifier 1 on an empty filesystem. -/
theorem create_fresh_empty_witness :
    Fs.lookup [] (StdObjectStore.object_path ⟨"r"⟩ 1) = none ∧
    ∃ fs2, StdObjectStore.create ⟨"r"⟩ [] 1 = Except.ok fs2 ∧
      StdObjectStore.size ⟨"r"⟩ fs2 1 = Except.ok 0 :=
  ⟨rfl, create_fresh_empty ⟨"r"⟩ [] 1 rfl⟩

/-- C9: for an identifier already holding an object with arbitrary
contents, `create` succeeds and resets the object to length 0, discarding
the previous contents. -/
theorem create_overwrite_resets (s : StdObjectStore) (fs : Fs) (objid : Nat)
    (c : Bytes) (h : fs.lookup (s.object_path objid) = some c) :
    ∃ fs2, s.create fs objid = Except.ok fs2 ∧
      fs2.lookup (s.object_path objid) = some [] ∧
      s.size fs2 objid = Except.ok 0 := by
  refine ⟨fs.setFile (s.object_path objid) [], rfl, ?_, ?_⟩
  · rw [Fs.lookup_setFile, if_pos rfl]
  · unfold StdObjectStore.size
    rw [Fs.lookup_setFile, if_pos rfl]
    rfl

/-- C9 witness: identifier 1 holding contents [3, 4, 5] under root "r". -/
theorem create_overwrite_resets_witness :
    Fs.lookup [("r/1", [3, 4, 5])] (StdObjectStore.object_path ⟨"r"⟩ 1) =
      some [3, 4, 5] ∧
    ∃ fs2, StdObjectStore.create ⟨"r"⟩ [("r/1", [3, 4, 5])] 1 =
        Except.ok fs2 ∧
      fs2.lookup (StdObjectStore.object_path ⟨"r"⟩ 1) = some [] ∧
      StdObjectStore.size ⟨"r"⟩ fs2 1 = Except.ok 0 :=
  ⟨by decide,
    create_overwrite_resets ⟨"r"⟩ [("r/1", [3, 4, 5])] 1 [3, 4, 5] (by decide)⟩

/-- C10: `truncate` on an identifier with no live object fails with a
`NotFound` error, and the filesystem is unchanged by the failed call. -/
theorem truncate_missing_not_found (s : StdObjectStore) (fs : Fs)
    (objid n : Nat) (h : fs.lookup (s.object_path objid) = none) :
    s.truncate fs objid n = Except.error ErrorKind.notFound ∧
    s.truncateFs fs objid n = fs := by
  constructor
  · unfold StdObjectStore.truncate
    rw [h]
  · unfold StdObjectStore.truncateFs StdObjectStore.truncate
    rw [h]

/-- C10 witness: truncating identifier 2 to size 5 on a filesystem
holding only identifier 1. -/
theorem truncate_missing_not_found_witness :
    Fs.lookup [("r/1", [7])] (StdObjectStore.object_path ⟨"r"⟩ 2) = none ∧
    StdObjectStore.truncate ⟨"r"⟩ [("r/1", [7])] 2 5 =
      Except.error ErrorKind.notFound ∧
    StdObjectStore.truncateFs ⟨"r"⟩ [("r/1", [7])] 2 5 = [("r/1", [7])] :=
  ⟨by decide, truncate_missing_not_found ⟨"r"⟩ [("r/1", [7])] 2 5 (by decide)⟩

/-- C2: after `truncate(id, n)` succeeds on an object with contents `c`,
reading back the full contents through a fresh read handle yields a byte
sequence of length exactly `n` whose first `min n c.length` bytes agree
with `c`. -/
theorem truncate_content_spec (s : StdObjectStore) (fs : Fs) (objid n : Nat)
    (c : Bytes) (h : fs.lookup (s.object_path objid) = some c) :
    ∃ fs2 hnd c2,
      s.truncate fs objid n = Except.ok fs2 ∧
      s.read_handle fs2 objid = Except.ok hnd ∧
      hnd.readToEnd fs2 = Except.ok c2 ∧
      c2.length = n ∧
      c2.take (min n c.length) = c.take (min n c.length) := by
  refine ⟨fs.setFile (s.object_path objid) (StdObjectStore.setLen c n),
    ⟨s.object_path objid, AccessMode.readOnly, 0⟩,
    StdObjectStore.setLen c n, ?_, ?_, ?_, ?_, ?_⟩
  · unfold StdObjectStore.truncate
    rw [h]
  · unfold StdObjectStore.read_handle
    rw [Fs.lookup_setFile, if_pos rfl]
  · simp [Handle.readToEnd, Fs.lookup_setFile]
  · unfold StdObjectStore.setLen
    by_cases hn : n ≤ c.length
    · rw [if_pos hn, List.length_take]
      omega
    · rw [if_neg hn, List.length_append, List.length_replicate]
      omega
  · unfold StdObjectStore.setLen
    by_cases hn : n ≤ c.length
    · rw [if_pos hn]
      have hm : min n c.length = n := by omega
      rw [hm, List.take_take]
      simp
    · rw [if_neg hn]
      have hm : min n c.length = c.length := by omega
      rw [hm, List.take_append_of_le_length (le_refl c.length)]

/-- C2 witness: identifier 1 with contents [1, 2, 3], truncated to 5. -/
theorem truncate_content_spec_witness :
    Fs.lookup [("r/1", [1, 2, 3])] (StdObjectStore.object_path ⟨"r"⟩ 1) =
      some [1, 2, 3] ∧
    ∃ fs2 hnd c2,
      StdObjectStore.truncate ⟨"r"⟩ [("r/1", [1, 2, 3])] 1 5 =
        Except.ok fs2 ∧
      StdObjectStore.read_handle ⟨"r"⟩ fs2 1 = Except.ok hnd ∧
      hnd.readToEnd fs2 = Except.ok c2 ∧
      c2.length = 5 ∧
      c2.take (min 5 ([1, 2, 3] : Bytes).length) =
        ([1, 2, 3] : Bytes).take (min 5 ([1, 2, 3] : Bytes).length) :=
  ⟨by decide,
    truncate_content_spec ⟨"r"⟩ [("r/1", [1, 2, 3])] 1 5 [1, 2, 3] (by decide)⟩

/-- C3 counterexample: identifier 1 holds [0, 1]; writing [9] through a
write handle at offset 0 and reading back through a fresh read handle
yields [9, 1], not exactly [9] — opening for writing does not truncate,
so the surviving old byte remains. -/
theorem write_read_roundtrip_cex :
    StdObjectStore.write_handle ⟨"r"⟩ [("r/1", [0, 1])] 1 =
      Except.ok ⟨"r/1", AccessMode.writeOnly, 0⟩ ∧
    Handle.write ⟨"r/1", AccessMode.writeOnly, 0⟩ [("r/1", [0, 1])] [9] =
      Except.ok (⟨"r/1", AccessMode.writeOnly, 1⟩, [("r/1", [9, 1])]) ∧
    StdObjectStore.read_handle ⟨"r"⟩ [("r/1", [9, 1])] 1 =
      Except.ok ⟨"r/1", AccessMode.readOnly, 0⟩ ∧
    Handle.readToEnd ⟨"r/1", AccessMode.readOnly, 0⟩ [("r/1", [9, 1])] =
      Except.ok [9, 1] ∧
    ([9, 1] : Bytes) ≠ [9] := by
  refine ⟨?_, ?_, ?_, ?_, ?_⟩ <;> decide

/-- C3 amended: writing `b` through a write handle at offset 0, then
reading through a fresh read handle, yields `b` followed by the old
contents beyond position `b.length`; this is exactly `b` whenever `b`
covers the old contents (in particular for freshly created objects). -/
theorem write_read_roundtrip (s : StdObjectStore) (fs : Fs) (objid : Nat)
    (b c : Bytes) (h : fs.lookup (s.object_path objid) = some c) :
    ∃ hnd hnd2 fs2 hr,
      s.write_handle fs objid = Except.ok hnd ∧
      hnd.write fs b = Except.ok (hnd2, fs2) ∧
      s.read_handle fs2 objid = Except.ok hr ∧
      hr.readToEnd fs2 = Except.ok (b ++ c.drop b.length) ∧
      (c.length ≤ b.length → hr.readToEnd fs2 = Except.ok b) := by
  refine ⟨⟨s.object_path objid, AccessMode.writeOnly, 0⟩,
    ⟨s.object_path objid, AccessMode.writeOnly, 0 + b.length⟩,
    fs.setFile (s.object_path objid) (b ++ c.drop b.length),
    ⟨s.object_path objid, AccessMode.readOnly, 0⟩, ?_, ?_, ?_, ?_, ?_⟩
  · unfold StdObjectStore.write_handle
    rw [h]
  · simp [Handle.write, h]
  · unfold StdObjectStore.read_handle
    rw [Fs.lookup_setFile, if_pos rfl]
  · simp [Handle.readToEnd, Fs.lookup_setFile]
  · intro hle
    simp [Handle.readToEnd, Fs.lookup_setFile, List.drop_eq_nil_of_le hle]

/-- C3 amended, witness: identifier 1 with contents [5], writing [8, 9]
covers the old contents, so reading back yields exactly [8, 9]. -/
theorem write_read_roundtrip_witness :
    Fs.lookup [("r/1", [5])] (StdObjectStore.object_path ⟨"r"⟩ 1) =
      some [5] ∧
    ∃ hnd hnd2 fs2 hr,
      StdObjectStore.write_handle ⟨"r"⟩ [("r/1", [5])] 1 = Except.ok hnd ∧
      hnd.write [("r/1", [5])] [8, 9] = Except.ok (hnd2, fs2) ∧
      StdObjectStore.read_handle ⟨"r"⟩ fs2 1 = Except.ok hr ∧
      hr.readToEnd fs2 =
        Except.ok ([8, 9] ++ ([5] : Bytes).drop ([8, 9] : Bytes).length) ∧
      (([5] : Bytes).length ≤ ([8, 9] : Bytes).length →
        hr.readToEnd fs2 = Except.ok [8, 9]) :=
  ⟨by decide, write_read_roundtrip ⟨"r"⟩ [("r/1", [5])] 1 [8, 9] [5] (by decide)⟩

/-- C5: once `destroy(id)` has succeeded, every subsequent
`read_handle`, `write_handle` and `rw_handle` call for `id` fails with a
`NotFound` error. -/
theorem handles_fail_after_destroy (s : StdObjectStore) (fs fs2 : Fs)
    (objid : Nat) (h : s.destroy fs objid = Except.ok fs2) :
    s.read_handle fs2 objid = Except.error ErrorKind.notFound ∧
    s.write_handle fs2 objid = Except.error ErrorKind.notFound ∧
    s.rw_handle fs2 objid = Except.error ErrorKind.notFound := by
  unfold StdObjectStore.destroy at h
  cases hl : fs.lookup (s.object_path objid) with
  | none =>
      rw [hl] at h
      exact Except.noConfusion h
  | some c =>
      rw [hl] at h
      have h2 : fs2 = fs.eraseFile (s.object_path objid) :=
        (Except.ok.inj h).symm
      subst h2
      refine ⟨?_, ?_, ?_⟩ <;>
        simp [StdObjectStore.read_handle, StdObjectStore.write_handle,
          StdObjectStore.rw_handle, Fs.lookup_eraseFile]

/-- C5 witness: destroying identifier 1 (the only object) and then
attempting to open it in each of the three modes. -/
theorem handles_fail_after_destroy_witness :
    StdObjectStore.destroy ⟨"r"⟩ [("r/1", [7])] 1 = Except.ok [] ∧
    (StdObjectStore.read_handle ⟨"r"⟩ [] 1 =
        Except.error ErrorKind.notFound ∧
      StdObjectStore.write_handle ⟨"r"⟩ [] 1 =
        Except.error ErrorKind.notFound ∧
      StdObjectStore.rw_handle ⟨"r"⟩ [] 1 =
        Except.error ErrorKind.notFound) :=
  ⟨by decide, handles_fail_after_destroy ⟨"r"⟩ [("r/1", [7])] [] 1 (by decide)⟩

/-- C6: each of the three open operations fails with a `NotFound` error
when no object exists under the identifier, and when the object exists
each returns a handle bound to the object's path, carrying the requested
access mode, positioned at offset 0. -/
theorem handle_open_spec (s : StdObjectStore) (fs : Fs) (objid : Nat) :
    (fs.lookup (s.object_path objid) = none →
      s.read_handle fs objid = Except.error ErrorKind.notFound ∧
      s.write_handle fs objid = Except.error ErrorKind.notFound ∧
      s.rw_handle fs objid = Except.error ErrorKind.notFound) ∧
    (∀ c, fs.lookup (s.object_path objid) = some c →
      s.read_handle fs objid =
        Except.ok ⟨s.object_path objid, AccessMode.readOnly, 0⟩ ∧
      s.write_handle fs objid =
        Except.ok ⟨s.object_path objid, AccessMode.writeOnly, 0⟩ ∧
      s.rw_handle fs objid =
        Except.ok ⟨s.object_path objid, AccessMode.readWrite, 0⟩) := by
  constructor
  · intro h
    refine ⟨?_, ?_, ?_⟩
    · unfold StdObjectStore.read_handle; rw [h]
    · unfold StdObjectStore.write_handle; rw [h]
    · unfold StdObjectStore.rw_handle; rw [h]
  · intro c h
    refine ⟨?_, ?_, ?_⟩
    · unfold StdObjectStore.read_handle; rw [h]
    · unfold StdObjectStore.write_handle; rw [h]
    · unfold StdObjectStore.rw_handle; rw [h]

/-- C6 witness: identifier 1 absent on an empty filesystem, then present
with contents [7]. -/
theorem handle_open_spec_witness :
    (StdObjectStore.read_handle ⟨"r"⟩ [] 1 =
        Except.error ErrorKind.notFound ∧
      StdObjectStore.write_handle ⟨"r"⟩ [] 1 =
        Except.error ErrorKind.notFound ∧
      StdObjectStore.rw_handle ⟨"r"⟩ [] 1 =
        Except.error ErrorKind.notFound) ∧
    (StdObjectStore.read_handle ⟨"r"⟩ [("r/1", [7])] 1 =
        Except.ok
          ⟨StdObjectStore.object_path ⟨"r"⟩ 1, AccessMode.readOnly, 0⟩ ∧
      StdObjectStore.write_handle ⟨"r"⟩ [("r/1", [7])] 1 =
        Except.ok
          ⟨StdObjectStore.object_path ⟨"r"⟩ 1, AccessMode.writeOnly, 0⟩ ∧
      StdObjectStore.rw_handle ⟨"r"⟩ [("r/1", [7])] 1 =
        Except.ok
          ⟨StdObjectStore.object_path ⟨"r"⟩ 1, AccessMode.readWrite, 0⟩) :=
  ⟨(handle_open_spec ⟨"r"⟩ [] 1).1 rfl,
    (handle_open_spec ⟨"r"⟩ [("r/1", [7])] 1).2 [7] (by decide)⟩

/-- C8: the identifier-to-location mapping is the pure function sending
`objid` to the path formed by the root, a separator, and the decimal
string form of `objid`; moreover `size` depends on the filesystem only
through that path, and `create`, `destroy` and `truncate` leave every
other path untouched. -/
theorem object_path_spec (s : StdObjectStore) (objid : Nat) :
    s.object_path objid = s.root ++ "/" ++ decimalRepr objid ∧
    (∀ fs1 fs2 : Fs,
        fs1.lookup (s.object_path objid) = fs2.lookup (s.object_path objid) →
        s.size fs1 objid = s.size fs2 objid) ∧
    (∀ fs fs2 : Fs, s.create fs objid = Except.ok fs2 →
        ∀ q, q ≠ s.object_path objid → fs2.lookup q = fs.lookup q) ∧
    (∀ fs fs2 : Fs, s.destroy fs objid = Except.ok fs2 →
        ∀ q, q ≠ s.object_path objid → fs2.lookup q = fs.lookup q) ∧
    (∀ fs fs2 : Fs, ∀ n, s.truncate fs objid n = Except.ok fs2 →
        ∀ q, q ≠ s.object_path objid → fs2.lookup q = fs.lookup q) := by
  refine ⟨?_, ?_, ?_, ?_, ?_⟩
  · unfold StdObjectStore.object_path pathJoin
    rw [fmtU64_eq_decimalRepr]
  · intro fs1 fs2 hEq
    unfold StdObjectStore.size
    rw [hEq]
  · intro fs fs2 hok q hq
    unfold StdObjectStore.create at hok
    have h2 : fs2 = fs.setFile (s.object_path objid) [] :=
      (Except.ok.inj hok).symm
    subst h2
    rw [Fs.lookup_setFile, if_neg hq]
  · intro fs fs2 hok q hq
    unfold StdObjectStore.destroy at hok
    cases hl : fs.lookup (s.object_path objid) with
    | none =>
        rw [hl] at hok
        exact Except.noConfusion hok
    | some c =>
        rw [hl] at hok
        have h2 : fs2 = fs.eraseFile (s.object_path objid) :=
          (Except.ok.inj hok).symm
        subst h2
        rw [Fs.lookup_eraseFile, if_neg hq]
  · intro fs fs2 n hok q hq
    unfold StdObjectStore.truncate at hok
    cases hl : fs.lookup (s.object_path objid) with
    | none =>
        rw [hl] at hok
        exact Except.noConfusion hok
    | some c =>
        rw [hl] at hok
        have h2 : fs2 = fs.setFile (s.object_path objid)
            (StdObjectStore.setLen c n) := (Except.ok.inj hok).symm
        subst h2
        rw [Fs.lookup_setFile, if_neg hq]

/-- C8 witness: root "r", identifier 1; the mapped path, a size query
that only sees that path, and create, destroy and truncate leaving the
unrelated file at path q untouched. -/
theorem object_path_spec_witness :
    StdObjectStore.object_path ⟨"r"⟩ 1 = "r" ++ "/" ++ decimalRepr 1 ∧
    StdObjectStore.size ⟨"r"⟩ [("r/1", [5])] 1 =
      StdObjectStore.size ⟨"r"⟩ [("r/1", [5]), ("q", [7])] 1 ∧
    Fs.lookup [("r/1", []), ("q", [7])] "q" = Fs.lookup [("q", [7])] "q" ∧
    Fs.lookup [("q", [7])] "q" =
      Fs.lookup [("r/1", []), ("q", [7])] "q" ∧
    Fs.lookup [("r/1", [1, 2, 0]), ("q", [7])] "q" =
      Fs.lookup [("r/1", [1, 2]), ("q", [7])] "q" :=
  ⟨(object_path_spec ⟨"r"⟩ 1).1,
    (object_path_spec ⟨"r"⟩ 1).2.1 [("r/1", [5])] [("r/1", [5]), ("q", [7])]
      (by decide),
    (object_path_spec ⟨"r"⟩ 1).2.2.1 [("q", [7])] [("r/1", []), ("q", [7])]
      (by decide) "q" (by decide),
    (object_path_spec ⟨"r"⟩ 1).2.2.2.1 [("r/1", []), ("q", [7])] [("q", [7])]
      (by decide) "q" (by decide),
    (object_path_spec ⟨"r"⟩ 1).2.2.2.2 [("r/1", [1, 2]), ("q", [7])]
      [("r/1", [1, 2, 0]), ("q", [7])] 3 (by decide) "q" (by decide)⟩

end Persistence
